import Mathlib

/-!
# Verification of the AUX air-conditioner serial protocol component

Shallow embedding of `src/aux_ac_custom_component.h` (class `AirCon`):
the packet checksum (`_CRC16` / `_setCRC16` / `_checkCRC`), the
status-body decoder and command encoder (`_doParsingPacket`,
`_fillSetCommand`), the receive/parse states of the link state machine
(`_doReceivingPacketState`, `_doParsingPacket`), and the sequence engine
(`_doSequence`, `sq_control*`, `commandSequence`).

Bytes are modelled as `Nat` values below 256 held in `List Nat`; machine
integer wrap-around (`uint32_t`) is modelled by explicit `% 2^32`; the
C bitwise operators map to `&&&`, `|||`, `>>>`, `<<<` on `Nat`, with
`x & 0xFFFF = x % 65536`, `x >> 16 = x / 65536` and `~x = 2^32 - 1 - x`
(for `x < 2^32`) spelled arithmetically where that matches the source.
The target MCU (ESP8266/ESP32) is little-endian, so the union
`packet_crc_t { uint16_t crc16; uint8_t crc[2]; }` splits a 16-bit value
as `crc[0] = low byte`, `crc[1] = high byte`; this is the only place the
embedding depends on host byte order, and it is spelled out explicitly.
Floats only ever hold multiples of 0.05 in the modelled code paths, so
`temp_*` fields are modelled exactly with `ℚ`.
-/

namespace AuxAC

/-! ## Protocol constants (from the `#define` block of the source) -/

def AC_HEADER_SIZE : Nat := 8
def AC_MAX_BODY_SIZE : Nat := 24
def AC_BUFFER_SIZE : Nat := 34
def AC_PACKET_TIMEOUT : Nat := 150
def AC_SEQUENCE_MAX_LEN : Nat := 15
def AC_SEQUENCE_DEFAULT_TIMEOUT : Nat := 500
def AC_PACKET_START_BYTE : Nat := 0xBB
def AC_PACKET_ANSWER : Nat := 0x80
def AC_PTYPE_PING : Nat := 0x01
def AC_PTYPE_CMD : Nat := 0x06
def AC_PTYPE_INFO : Nat := 0x07
def AC_CMD_STATUS_BIG : Nat := 0x21
def AC_CMD_STATUS_SMALL : Nat := 0x11
def AC_CMD_STATUS_PERIODIC : Nat := 0x2C
def AC_CMD_SET_PARAMS : Nat := 0x01

/-- States of the component's finite state machine (`enum acsm_state`). -/
inductive Acsm where
  | idle
  | receiving
  | parsing
  | sending
deriving DecidableEq, Repr

/-! ## Checksum (`_CRC16`, `_setCRC16`, `_checkCRC`)

The source copies the `len` data bytes into a zeroed 34-byte scratch
buffer, bumps `len` by one when it is odd (the extra byte reads the
zero fill), sums big-endian 16-bit words into a `uint32_t`, folds the
high half into the low half once, complements, and masks to 16 bits. -/

/-- Accumulating word sum of `_CRC16`'s `for (i=0; i<len; i+=2)` loop:
two bytes at a time, big-endian word, `uint32_t` accumulator. -/
def crcWordSum : List Nat → Nat → Nat
  | [], acc => acc
  | [a], acc => (acc + a * 256) % 4294967296
  | a :: b :: rest, acc => crcWordSum rest ((acc + (a * 256 + b)) % 4294967296)

/-- Checksum exactly as `_CRC16(data, len)` computes it with
`len = data.length`: scratch buffer of 34 zero-filled bytes, odd length
rounded up, word sum, one carry fold, bitwise complement of the
`uint32_t`, low 16 bits returned. -/
def CRC16 (data : List Nat) : Nat :=
  let buf := data.take AC_BUFFER_SIZE ++ List.replicate (AC_BUFFER_SIZE - data.length) 0
  let len := if data.length % 2 = 1 then data.length + 1 else data.length
  let s := crcWordSum (buf.take len) 0
  let folded := (s / 65536 + s % 65536) % 4294967296
  (4294967295 - folded) % 65536

/-- Checksum bytes as `_setCRC16` stores them into the packet: the
little-endian union view of the 16-bit checksum has `crc[0] = low`,
`crc[1] = high`, and the source assigns `packet byte 0 := crc[1]`
(high byte) and `packet byte 1 := crc[0]` (low byte). -/
def setCRC16 (data : List Nat) : Nat × Nat :=
  (CRC16 data / 256 % 256, CRC16 data % 256)

/-- Big-endian 16-bit word list of a byte list, the last odd byte padded
with a zero low byte. Used only by the spec-side checksum definition. -/
def toBEWords : List Nat → List Nat
  | [] => []
  | [a] => [a * 256]
  | a :: b :: rest => (a * 256 + b) :: toBEWords rest

/-- Checksum as §4.2 of the specification words it: pad an odd trailing
byte with a zero byte (without mutating the buffer), sum the big-endian
16-bit words in a 32-bit accumulator, fold the carry into the low
16 bits, return the one's complement (of the 16-bit value). -/
def checksumSpec (data : List Nat) : Nat :=
  let padded := if data.length % 2 = 1 then data ++ [0] else data
  let s := (toBEWords padded).foldl (fun acc w => (acc + w) % 4294967296) 0
  let folded := s / 65536 + s % 65536
  65535 - folded % 65536

theorem crcWordSum_eq_foldl :
    ∀ (l : List Nat) (acc : Nat),
      crcWordSum l acc = (toBEWords l).foldl (fun a w => (a + w) % 4294967296) acc
  | [], _ => rfl
  | [_], _ => rfl
  | _ :: _ :: rest, acc => by
      simp only [crcWordSum, toBEWords, List.foldl]
      exact crcWordSum_eq_foldl rest _

/-- Folded word sums stay strictly below `2 ^ 32`. -/
theorem foldl_mod32_lt (l : List Nat) (acc : Nat) (h : acc < 4294967296) :
    l.foldl (fun a w => (a + w) % 4294967296) acc < 4294967296 := by
  induction l generalizing acc with
  | nil => simpa using h
  | cons w rest ih => exact ih _ (Nat.mod_lt _ (by norm_num))

/-- Scratch-buffer slice taken by the `_CRC16` loop equals the input
padded with a single zero byte exactly when the length is odd. -/
theorem crcBuffer_take (data : List Nat) (h : data.length + 1 ≤ AC_BUFFER_SIZE) :
    ((data.take AC_BUFFER_SIZE ++ List.replicate (AC_BUFFER_SIZE - data.length) 0).take
        (if data.length % 2 = 1 then data.length + 1 else data.length)) =
      (if data.length % 2 = 1 then data ++ [0] else data) := by
  have hle : data.length ≤ AC_BUFFER_SIZE := by omega
  have htake : data.take AC_BUFFER_SIZE = data := List.take_of_length_le hle
  rw [htake]
  by_cases hodd : data.length % 2 = 1
  · simp only [if_pos hodd]
    rw [List.take_append_eq_append_take, List.take_of_length_le (by omega),
      List.take_replicate]
    congr 1
    have : min (data.length + 1 - data.length) (AC_BUFFER_SIZE - data.length) = 1 := by
      simp only [AC_BUFFER_SIZE] at h ⊢; omega
    rw [this]
    rfl
  · simp only [if_neg hodd]
    rw [List.take_append_eq_append_take, List.take_of_length_le (le_refl _)]
    simp

/-- C1 helper: the code checksum agrees with the spec-side checksum on
every byte list short enough to fit the scratch buffer. -/
theorem CRC16_eq_checksumSpec (data : List Nat) (h : data.length + 1 ≤ AC_BUFFER_SIZE) :
    CRC16 data = checksumSpec data := by
  simp only [CRC16, checksumSpec, crcWordSum_eq_foldl, crcBuffer_take data h]
  set s := (toBEWords (if data.length % 2 = 1 then data ++ [0] else data)).foldl
      (fun a w => (a + w) % 4294967296) 0 with hs
  have hslt : s < 4294967296 := foldl_mod32_lt _ 0 (by norm_num)
  have hfold : s / 65536 + s % 65536 < 4294967296 := by omega
  rw [Nat.mod_eq_of_lt hfold]
  omega

/-! ## Packets (`packet_t`)

The 34-byte buffer is a `List Nat` of byte values; `header`, `body` and
`crc` are views at fixed offsets (`body = data + 8`,
`crc = data + 8 + body_length`), so they are functions of `data` here
rather than stored pointers. `msec` is the `millis()` timestamp taken
when the first byte of the frame arrived. -/

structure Packet where
  data : List Nat
  bytesLoaded : Nat
  msec : Nat
deriving DecidableEq, Repr

/-- Packet after `_clearPacket` / `_clearInPacket`: zeroed buffer, no
bytes loaded, timestamp reset. -/
def Packet.cleared : Packet :=
  { data := List.replicate AC_BUFFER_SIZE 0, bytesLoaded := 0, msec := 0 }

/-- Header field `packet_type` (`header->packet_type`, buffer byte 2). -/
def Packet.ptype (p : Packet) : Nat := p.data.getD 2 0

/-- Header field `body_length` (`header->body_length`, buffer byte 6). -/
def Packet.bodyLength (p : Packet) : Nat := p.data.getD 6 0

/-- Body byte `i` through the `body = data + AC_HEADER_SIZE` pointer; the
C code indexes past `body_length` freely (the struct views cover the
whole buffer), so this is an offset into `data`, not into a truncated
body slice. -/
def Packet.bodyByte (p : Packet) (i : Nat) : Nat := p.data.getD (AC_HEADER_SIZE + i) 0

/-- CRC verification (`_checkCRC`): fewer than 8 loaded bytes fail;
otherwise the checksum of header+body is recomputed and the stored byte
at offset `8 + body_length` must equal the high byte of the complement
and the next byte the low byte (same swapped order `_setCRC16` writes). -/
def checkCRC (p : Packet) : Bool :=
  if p.bytesLoaded < AC_HEADER_SIZE then false
  else
    let v := CRC16 (p.data.take (AC_HEADER_SIZE + p.bodyLength))
    (p.data.getD (AC_HEADER_SIZE + p.bodyLength) 0 == v / 256 % 256) &&
      (p.data.getD (AC_HEADER_SIZE + p.bodyLength + 1) 0 == v % 256)

/-! ## AC state and commands (`ac_command_t` / `ac_state_t`)

One `Nat` per enumerated byte field (the `0xFF` sentinel is the
"untouched" value), exact rationals for the temperature floats. The C
code uses the same struct for the last-known state and for commands. -/

structure AcCommand where
  power : Nat
  tempTarget : ℚ
  tempTargetMatter : Bool
  tempAmbient : ℚ
  tempOutdoor : ℚ
  clean : Nat
  health : Nat
  healthStatus : Nat
  mode : Nat
  sleep : Nat
  iFeel : Nat
  louverH : Nat
  louverV : Nat
  fanSpeed : Nat
  fanTurbo : Nat
  fanMute : Nat
  display : Nat
  mildew : Nat
deriving DecidableEq, Repr

abbrev AcState := AcCommand

/-- Command with every field at its neutral value (`_clearCommand`):
all enumerated fields `0xFF` (untouched), temperatures zero, target
temperature not set. -/
def clearCommand : AcCommand :=
  { power := 0xFF, tempTarget := 0, tempTargetMatter := false,
    tempAmbient := 0, tempOutdoor := 0,
    clean := 0xFF, health := 0xFF, healthStatus := 0xFF,
    mode := 0xFF, sleep := 0xFF, iFeel := 0xFF,
    louverH := 0xFF, louverV := 0xFF,
    fanSpeed := 0xFF, fanTurbo := 0xFF, fanMute := 0xFF,
    display := 0xFF, mildew := 0xFF }

/-! ## Status-body decoding (small/big branches of `_doParsingPacket`)

Each step mirrors one `stateByte = body[k] & MASK; changed ||= ...;
field = stateByte` block of the source, in source order. `body` is the
byte list starting at buffer offset 8. -/

/-- Small-status decode (`AC_CMD_STATUS_SMALL` branch): returns the
updated state and the accumulated `stateChangedFlag`. The fields are
written in source order; each `changed` term compares the incoming
masked byte with the corresponding field of `st0`, which is the value
the field still holds at that point of the source (every field is
assigned exactly once, except the temperature handled first). -/
def decodeSmall (body : List Nat) (st0 : AcState) : AcState × Bool :=
  let b : Nat → Nat := fun i => body.getD i 0
  let temp : ℚ := 8 + ((b 2 >>> 3 : Nat) : ℚ) + (1 / 2 : ℚ) * ((b 4 >>> 7 : Nat) : ℚ)
  let ch : Bool := decide (st0.tempTarget ≠ temp) ||
    decide (st0.louverV ≠ (b 2 &&& 0x07)) ||
    decide (st0.louverH ≠ (b 3 &&& 0xE0)) ||
    decide (st0.fanSpeed ≠ (b 5 &&& 0xE0)) ||
    decide (st0.fanTurbo ≠ (b 6 &&& 0x40)) ||
    decide (st0.fanMute ≠ (b 6 &&& 0x80)) ||
    decide (st0.mode ≠ (b 7 &&& 0xE0)) ||
    decide (st0.sleep ≠ (b 7 &&& 0x04)) ||
    decide (st0.iFeel ≠ (b 7 &&& 0x08)) ||
    decide (st0.power ≠ (b 10 &&& 0x20)) ||
    decide (st0.health ≠ (b 10 &&& 0x02)) ||
    decide (st0.healthStatus ≠ (b 10 &&& 0x01)) ||
    decide (st0.clean ≠ (b 10 &&& 0x04)) ||
    decide (st0.display ≠ (b 12 &&& 0x10)) ||
    decide (st0.mildew ≠ (b 12 &&& 0x08))
  let st : AcState :=
    { st0 with
      tempTarget := temp, tempTargetMatter := true,
      louverV := b 2 &&& 0x07, louverH := b 3 &&& 0xE0,
      fanSpeed := b 5 &&& 0xE0, fanTurbo := b 6 &&& 0x40,
      fanMute := b 6 &&& 0x80,
      mode := b 7 &&& 0xE0, sleep := b 7 &&& 0x04, iFeel := b 7 &&& 0x08,
      power := b 10 &&& 0x20, health := b 10 &&& 0x02,
      healthStatus := b 10 &&& 0x01, clean := b 10 &&& 0x04,
      display := b 12 &&& 0x10, mildew := b 12 &&& 0x08 }
  (st, ch)

/-- Big/periodic-status decode (`AC_CMD_STATUS_BIG` /
`AC_CMD_STATUS_PERIODIC` branch): ambient temperature from body bytes
7 (integer, biased by 0x20) and 23 (tenths), outdoor probe from body
byte 9. `uint8 - 0x20` promotes to `int` in C, hence the signed ℚ
subtraction. -/
def decodeBig (body : List Nat) (st0 : AcState) : AcState × Bool :=
  let b := fun i => body.getD i 0
  let ambient : ℚ := (b 7 : ℚ) - 0x20 + (b 23 : ℚ) / 10
  let ch := decide (st0.tempAmbient ≠ ambient)
  let st := { st0 with tempAmbient := ambient }
  let outdoor : ℚ := (b 9 : ℚ) - 0x20
  let ch := ch || decide (st.tempOutdoor ≠ outdoor)
  let st := { st with tempOutdoor := outdoor }
  (st, ch)

/-- Result of one `_doParsingPacket` call: the state-machine state it
leaves behind, the possibly updated AC state, and whether the
`stateChanged()` notification fired. The incoming packet is always
cleared before returning (`_clearInPacket` at the end or in the
failure branches), so it is not part of the result. -/
structure ParseResult where
  acsm : Acsm
  ac : AcState
  notified : Bool
deriving DecidableEq, Repr

/-- One parsing step (`_doParsingPacket`). Checksum failure discards the
frame and returns to Idle before any dispatch. A ping triggers the pong
answer and goes straight to Sending; every other packet type ends in
Idle. Info packets dispatch on body byte 1 and possibly mutate the AC
state; `stateChanged()` fires exactly when the changed flag is set. The
sequence hook `_doSequence()` run at the end never writes `_ac_state`,
so it does not affect this result. -/
def doParsingPacket (p : Packet) (st : AcState) : ParseResult :=
  if ¬ checkCRC p then { acsm := .idle, ac := st, notified := false }
  else if p.ptype = AC_PTYPE_PING then { acsm := .sending, ac := st, notified := false }
  else if p.ptype = AC_PTYPE_CMD then { acsm := .idle, ac := st, notified := false }
  else if p.ptype = AC_PTYPE_INFO then
    let body := p.data.drop AC_HEADER_SIZE
    if body.getD 1 0 = AC_CMD_STATUS_SMALL then
      let r := decodeSmall body st
      { acsm := .idle, ac := r.1, notified := r.2 }
    else if body.getD 1 0 = AC_CMD_STATUS_BIG ∨ body.getD 1 0 = AC_CMD_STATUS_PERIODIC then
      let r := decodeBig body st
      { acsm := .idle, ac := r.1, notified := r.2 }
    else
      { acsm := .idle, ac := st, notified := false }
  else { acsm := .idle, ac := st, notified := false }

/-! ## Command encoding (`_fillSetCommand`)

The body produced for `AC_CMD_SET_PARAMS` is 15 bytes. The outer call
clears the packet, recursively fills it from `_current_ac_state`, then
overlays the fields of the explicit command that are not `0xFF`
(untouched). Masked writes `body[k] = (body[k] & ~MASK) | value`
translate with the 8-bit complement of each mask spelled as a literal.
The temperature is clamped to 16–32 before encoding; the `(uint8_t)`
cast of a non-negative float truncates, i.e. takes the floor. -/

/-- Single overlay pass of `_fillSetCommand` for one command record over
an existing 15-byte body (the part after the header fields are set). -/
def applySetParams (body0 : List Nat) (cmd : AcCommand) : List Nat :=
  let body := (body0.set 0 AC_CMD_SET_PARAMS).set 1 0x01
  let body :=
    if cmd.tempTargetMatter then
      let tt : ℚ := if cmd.tempTarget < 16 then 16 else if cmd.tempTarget > 32 then 32 else cmd.tempTarget
      let ti : Nat := Int.toNat ⌊tt⌋
      let body := body.set 2 ((body.getD 2 0 &&& 0x07) ||| ((ti - 8) <<< 3))
      if tt - (ti : ℚ) > 0 then body.set 4 ((body.getD 4 0 &&& 0x7F) ||| 1)
      else body.set 4 ((body.getD 4 0 &&& 0x7F) ||| 0)
    else body
  let body := if cmd.louverV ≠ 0xFF then body.set 2 ((body.getD 2 0 &&& 0xF8) ||| cmd.louverV) else body
  let body := if cmd.louverH ≠ 0xFF then body.set 3 ((body.getD 3 0 &&& 0x1F) ||| cmd.louverH) else body
  let body := if cmd.fanSpeed ≠ 0xFF then body.set 5 ((body.getD 5 0 &&& 0x1F) ||| cmd.fanSpeed) else body
  let body := if cmd.fanTurbo ≠ 0xFF then body.set 6 ((body.getD 6 0 &&& 0xBF) ||| cmd.fanTurbo) else body
  let body := if cmd.fanMute ≠ 0xFF then body.set 6 ((body.getD 6 0 &&& 0x7F) ||| cmd.fanMute) else body
  let body := if cmd.mode ≠ 0xFF then body.set 7 ((body.getD 7 0 &&& 0x1F) ||| cmd.mode) else body
  let body := if cmd.sleep ≠ 0xFF then body.set 7 ((body.getD 7 0 &&& 0xFB) ||| cmd.sleep) else body
  let body := if cmd.iFeel ≠ 0xFF then body.set 7 ((body.getD 7 0 &&& 0xF7) ||| cmd.iFeel) else body
  let body := if cmd.power ≠ 0xFF then body.set 10 ((body.getD 10 0 &&& 0xDF) ||| cmd.power) else body
  let body := if cmd.clean ≠ 0xFF then body.set 10 ((body.getD 10 0 &&& 0xFB) ||| cmd.clean) else body
  let body := if cmd.health ≠ 0xFF then body.set 10 ((body.getD 10 0 &&& 0xFD) ||| cmd.health) else body
  let body := if cmd.display ≠ 0xFF then body.set 12 ((body.getD 12 0 &&& 0xEF) ||| cmd.display) else body
  let body := if cmd.mildew ≠ 0xFF then body.set 12 ((body.getD 12 0 &&& 0xF7) ||| cmd.mildew) else body
  body

/-- Body of the set-params packet built by
`_fillSetCommand(true, pack, cmd)` with `cmd ≠ &_current_ac_state`:
the cleared (zero) body is first filled from the current AC state by the
recursive call, then the explicit command is overlaid. -/
def fillSetCommandBody (st : AcState) (cmd : AcCommand) : List Nat :=
  applySetParams (applySetParams (List.replicate 15 0) st) cmd

/-! ## Receive state (`_doReceivingPacketState`)

One call drains the available serial bytes into the incoming packet.
Modelled as structural recursion over the list of available bytes, with
`now` the (single) `millis()` reading of this call. The loop: on a full
buffer discard and go Idle; otherwise store the byte; once
`bytesLoaded == 8 + body_length + 2` hand the frame to the parser.
After the bytes run out, an expired `AC_PACKET_TIMEOUT` also discards
and goes Idle; otherwise the machine stays in Receiving. -/

structure RecvResult where
  packet : Packet
  acsm : Acsm
deriving DecidableEq, Repr

def doReceivingPacketState (p : Packet) (avail : List Nat) (now : Nat) : RecvResult :=
  match avail with
  | [] =>
    if now - p.msec ≥ AC_PACKET_TIMEOUT then { packet := Packet.cleared, acsm := .idle }
    else { packet := p, acsm := .receiving }
  | byte :: rest =>
    if p.bytesLoaded ≥ AC_BUFFER_SIZE then { packet := Packet.cleared, acsm := .idle }
    else
      let p1 : Packet :=
        { p with data := p.data.set p.bytesLoaded byte, bytesLoaded := p.bytesLoaded + 1 }
      if p1.bytesLoaded = AC_HEADER_SIZE + p1.bodyLength + 2 then
        { packet := p1, acsm := .parsing }
      else doReceivingPacketState p1 rest now

/-! ## Sequence engine (`sequence_item_t[15]`, `_doSequence`, `sq_*`)

The member-function pointers of `sequence_item_t.func` form a closed
set; they are modelled as an enumeration. A sequence state is the
15-slot array plus the step cursor `_sequence_current_step`. -/

/-- Closed set of step operations used in `_sequence[i].func`. -/
inductive SqFunc where
  | requestSmallStatus
  | controlSmallStatus
  | requestBigStatus
  | controlBigStatus
  | requestDoCommand
  | controlDoCommand
deriving DecidableEq, Repr

/-- Element type tag (`sequence_item_type_t`). -/
inductive SeqItemType where
  | sitNone
  | sitDelay
  | sitFunc
deriving DecidableEq, Repr

/-- One slot of the sequence array (`sequence_item_t`). `packetType`
holds the `sequence_packet_type_t` byte (0 clear, 1 received, 2 sent). -/
structure SeqItem where
  itemType : SeqItemType
  fn : Option SqFunc
  timeout : Nat
  msec : Nat
  packetType : Nat
  packet : Packet
  cmd : AcCommand
deriving DecidableEq, Repr

/-- Slot contents after `_clearSequence` resets it. -/
def SeqItem.cleared : SeqItem :=
  { itemType := .sitNone, fn := none, timeout := 0, msec := 0,
    packetType := 0, packet := Packet.cleared, cmd := clearCommand }

/-- Sequence array plus cursor (`_sequence`, `_sequence_current_step`). -/
structure SeqState where
  items : List SeqItem
  cursor : Nat
deriving DecidableEq, Repr

/-- State after `_clearSequence`: all 15 slots reset, cursor zero. -/
def clearedSeq : SeqState :=
  { items := List.replicate AC_SEQUENCE_MAX_LEN SeqItem.cleared, cursor := 0 }

/-- Occupancy test (`hasSequence`): slot 0 is not `AC_SIT_NONE`. -/
def hasSequence (s : SeqState) : Bool :=
  (s.items.getD 0 SeqItem.cleared).itemType ≠ SeqItemType.sitNone

/-- One engine tick (`_doSequence`) up to the call of the step function:
returns the updated sequence state and the operation the tick invokes
(`none` when the tick returns without calling a step function — empty
sequence, cursor overflow, missing function pointer, expired timeout,
delay handling, end of sequence). Stamping the start time and
defaulting a zero timeout to `AC_SEQUENCE_DEFAULT_TIMEOUT` happen
before the timeout comparison, exactly as in the source. -/
def doSequence (s : SeqState) (now : Nat) : SeqState × Option SqFunc :=
  if ¬ hasSequence s then (s, none)
  else if s.cursor ≥ AC_SEQUENCE_MAX_LEN then (clearedSeq, none)
  else
    let it := s.items.getD s.cursor SeqItem.cleared
    match it.itemType with
    | .sitFunc =>
      match it.fn with
      | none => (clearedSeq, none)
      | some f =>
        let it1 := if it.msec = 0 then { it with msec := now } else it
        let it2 := if it1.timeout = 0 then { it1 with timeout := AC_SEQUENCE_DEFAULT_TIMEOUT } else it1
        if now - it2.msec ≥ it2.timeout then (clearedSeq, none)
        else ({ s with items := s.items.set s.cursor it2 }, some f)
    | .sitDelay =>
      let it1 := if it.msec = 0 then { it with msec := now } else it
      if now - it1.msec ≥ it1.timeout then
        ({ s with items := s.items.set s.cursor it1, cursor := s.cursor + 1 }, none)
      else ({ s with items := s.items.set s.cursor it1 }, none)
    | .sitNone => (clearedSeq, none)

/-- Store the incoming packet into the current slot as a received packet
(`_copyPacket` into `_sequence[step].packet` plus the type tag). -/
def storeReceived (s : SeqState) (inP : Packet) : SeqState :=
  let it := s.items.getD s.cursor SeqItem.cleared
  { s with items := s.items.set s.cursor { it with packet := inP, packetType := 1 } }

/-- Confirm step for the small status request (`sq_controlSmallStatus`):
no incoming bytes or a ping packet return success untouched; otherwise
the packet is stored in the slot and must be an info packet with body
length 15 and body bytes 0/1 equal to `0x01`/`0x11` for the cursor to
advance; anything else returns failure (aborting the sequence). -/
def sqControlSmallStatus (inP : Packet) (s : SeqState) : Bool × SeqState :=
  if inP.bytesLoaded = 0 then (true, s)
  else if inP.ptype = AC_PTYPE_PING then (true, s)
  else
    let s1 := storeReceived s inP
    if inP.ptype = AC_PTYPE_INFO ∧ inP.bodyLength = 0x0F ∧
        inP.bodyByte 0 = 0x01 ∧ inP.bodyByte 1 = AC_CMD_STATUS_SMALL then
      (true, { s1 with cursor := s1.cursor + 1 })
    else (false, s1)

/-- Confirm step for the big status request (`sq_controlBigStatus`). -/
def sqControlBigStatus (inP : Packet) (s : SeqState) : Bool × SeqState :=
  if inP.bytesLoaded = 0 then (true, s)
  else if inP.ptype = AC_PTYPE_PING then (true, s)
  else
    let s1 := storeReceived s inP
    if inP.ptype = AC_PTYPE_INFO ∧ inP.bodyLength = 0x18 ∧
        inP.bodyByte 0 = 0x01 ∧ inP.bodyByte 1 = AC_CMD_STATUS_BIG then
      (true, { s1 with cursor := s1.cursor + 1 })
    else (false, s1)

/-- Confirm step for the set-params command (`sq_controlDoCommand`):
additionally matches body bytes 2 and 3 against the checksum bytes of
the packet sent on the previous step. With the cursor at 0 the C code
would read `_sequence[255]` out of bounds; the model's truncated
`s.cursor - 1 = 0` stands in for that unreachable corner (the builder
always places this step after a request step). -/
def sqControlDoCommand (inP : Packet) (s : SeqState) : Bool × SeqState :=
  if inP.bytesLoaded = 0 then (true, s)
  else if inP.ptype = AC_PTYPE_PING then (true, s)
  else
    let s1 := storeReceived s inP
    let prev := (s.items.getD (s.cursor - 1) SeqItem.cleared).packet
    let prevCrcOff := AC_HEADER_SIZE + prev.bodyLength
    if inP.ptype = AC_PTYPE_INFO ∧ inP.bodyLength = 0x04 ∧
        inP.bodyByte 0 = 0x01 ∧ inP.bodyByte 1 = AC_CMD_SET_PARAMS ∧
        inP.bodyByte 2 = prev.data.getD prevCrcOff 0 ∧
        inP.bodyByte 3 = prev.data.getD (prevCrcOff + 1) 0 then
      (true, { s1 with cursor := s1.cursor + 1 })
    else (false, s1)

/-- Write one function step into slot `i` (the `_sequence[step]`
assignments of the builder functions set only the type and the function
pointer; other slot fields keep their previous contents). -/
def setFuncStep (s : SeqState) (i : Nat) (f : SqFunc) : SeqState :=
  let it := s.items.getD i SeqItem.cleared
  { s with items := s.items.set i { it with itemType := .sitFunc, fn := some f } }

/-- Write the set-params step (also stores the command in the slot). -/
def setCmdStep (s : SeqState) (i : Nat) (cmd : AcCommand) : SeqState :=
  let it := s.items.getD i SeqItem.cleared
  { s with items := s.items.set i ({ it with itemType := .sitFunc, fn := some .requestDoCommand, cmd := cmd }) }

/-- Index the builder starts writing at: when a sequence is loaded, the
source scans for the first slot whose `item_type != AC_SIT_NONE` and
takes its index (`step` stays 0 when no such slot exists). -/
def commandSeqStart (s : SeqState) : Nat :=
  match s.items.findIdx? (fun it => it.itemType ≠ SeqItemType.sitNone) with
  | some i => i
  | none => 0

/-- Command transaction builder (`commandSequence`): six function steps
(request/confirm small status, request/confirm set-params,
request/confirm small status). With a sequence already loaded the six
steps are written starting at `commandSeqStart`, unless that start
index is at least `AC_SEQUENCE_MAX_LEN - 1`, in which case the request
is rejected and the state returned unchanged. -/
def commandSequence (s : SeqState) (cmd : AcCommand) : SeqState :=
  let step := if hasSequence s then commandSeqStart s else 0
  if hasSequence s ∧ step ≥ AC_SEQUENCE_MAX_LEN - 1 then s
  else
    let s1 := setFuncStep s step .requestSmallStatus
    let s2 := setFuncStep s1 (step + 1) .controlSmallStatus
    let s3 := setCmdStep s2 (step + 2) cmd
    let s4 := setFuncStep s3 (step + 3) .controlDoCommand
    let s5 := setFuncStep s4 (step + 4) .requestSmallStatus
    setFuncStep s5 (step + 5) .controlSmallStatus

/-! ## Concrete fixtures used by counterexamples and witnesses -/

/-- Header+body of the pong frame from the end-to-end scenario of §8:
`BB 00 01 80 01 00 08 00` header, `1C 27 00 00 00 00 00 00` body. -/
def pingAnswerFrame16 : List Nat :=
  [0xBB, 0x00, 0x01, 0x80, 0x01, 0x00, 0x08, 0x00, 0x1C, 0x27, 0, 0, 0, 0, 0, 0]

/-- Complete valid ping request frame as the unit sends it: empty body,
checksum `0x43FF` over the 8 header bytes stored as `[0x43, 0xFF]`. -/
def pingPacket : Packet :=
  { data := [0xBB, 0, 1, 0, 0, 0, 0, 0, 0x43, 0xFF] ++ List.replicate 24 0,
    bytesLoaded := 10, msec := 5 }

/-- Ping-shaped frame whose stored checksum bytes are zero, hence
invalid. -/
def badCrcPacket : Packet :=
  { data := [0xBB, 0, 1, 0, 0, 0, 0, 0, 0, 0] ++ List.replicate 24 0,
    bytesLoaded := 10, msec := 5 }

/-- Sample AC state with every field at a real (non-sentinel) value:
powered on, COOL mode, 24 °C target, swing off on both louver axes,
automatic fan. -/
def sampleState : AcState :=
  { power := 0x20, tempTarget := 24, tempTargetMatter := true,
    tempAmbient := 0, tempOutdoor := 0,
    clean := 0, health := 0, healthStatus := 0,
    mode := 0x20, sleep := 0, iFeel := 0,
    louverH := 0xE0, louverV := 0x07,
    fanSpeed := 0xA0, fanTurbo := 0, fanMute := 0,
    display := 0, mildew := 0 }

/-! ## C1 — checksum computation and stored byte order -/

/-- Claim C1 as stated is false at the pong frame: the complemented
16-bit checksum of its header+body is `0x1E58`, and `_setCRC16` stores
byte 0 = `0x1E`, the HIGH byte of the complement, whereas the claim
requires byte 0 to be the low byte `0x58`. -/
theorem setCRC16_byte0_is_high_byte :
    CRC16 pingAnswerFrame16 = 0x1E58 ∧
    setCRC16 pingAnswerFrame16 = (0x1E, 0x58) ∧
    CRC16 pingAnswerFrame16 % 256 = 0x58 ∧ (0x1E : Nat) ≠ 0x58 := by decide

/-- Claim C1 (amended: byte 0 stores the HIGH byte of the complemented
16-bit checksum and byte 1 the low byte): for every header+body byte
sequence of length `8 + body_length` with `body_length ≤ 24`, `_CRC16`
computes exactly the §4.2 specification checksum — big-endian 16-bit
word sum with an odd trailing byte zero-padded without mutating the
buffer, one carry fold of the 32-bit accumulator into the low 16 bits,
one's complement — and `_setCRC16` stores byte 0 = high byte, byte 1 =
low byte of that value. -/
theorem CRC16_matches_spec_and_byte_order (bl : Nat) (data : List Nat)
    (hbl : bl ≤ AC_MAX_BODY_SIZE) (hlen : data.length = AC_HEADER_SIZE + bl) :
    CRC16 data = checksumSpec data ∧
    setCRC16 data = (checksumSpec data / 256 % 256, checksumSpec data % 256) := by
  have h : data.length + 1 ≤ AC_BUFFER_SIZE := by
    simp only [AC_MAX_BODY_SIZE] at hbl
    simp only [AC_HEADER_SIZE] at hlen
    simp only [AC_BUFFER_SIZE]
    omega
  have he := CRC16_eq_checksumSpec data h
  exact ⟨he, by simp only [setCRC16, he]⟩

/-- Witness for `CRC16_matches_spec_and_byte_order` at the pong frame
(body length 8). -/
theorem CRC16_matches_spec_and_byte_order_witness :
    CRC16 pingAnswerFrame16 = checksumSpec pingAnswerFrame16 ∧
    setCRC16 pingAnswerFrame16 =
      (checksumSpec pingAnswerFrame16 / 256 % 256, checksumSpec pingAnswerFrame16 % 256) :=
  CRC16_matches_spec_and_byte_order 8 pingAnswerFrame16 (by decide) (by decide)

/-! ## C4 — state left by one parsing step -/

/-- Claim C4 as stated is false: the parsing step on a checksum-valid
ping frame leaves the machine in Sending (the pong answer is handed
straight to the sender), not in Idle. -/
theorem parsing_ping_ends_in_sending :
    (doParsingPacket pingPacket sampleState).acsm = Acsm.sending ∧
    Acsm.sending ≠ Acsm.idle := by
  constructor
  · decide
  · decide

/-- Claim C4 (amended: one parsing step always ends in Idle except for a
checksum-valid ping frame, which ends in Sending): the final state of
`_doParsingPacket` is a function of the checksum check and the packet
type only, and no state other than Idle and Sending is reachable. -/
theorem parsing_exit_state (p : Packet) (st : AcState) :
    (doParsingPacket p st).acsm =
      if checkCRC p ∧ p.ptype = AC_PTYPE_PING then Acsm.sending else Acsm.idle := by
  unfold doParsingPacket
  by_cases h1 : checkCRC p
  · by_cases h2 : p.ptype = AC_PTYPE_PING
    · simp [h1, h2]
    · simp only [h1, h2, Bool.true_eq, not_true_eq_false, if_false, and_false,
        false_and, if_true, and_true, true_and]
      split_ifs <;> rfl
  · simp [h1]

/-! ## C7 — temperature and vertical-louver decode -/

/-- Claim C7: decoding a small-status body whose byte 2 is `0x98` and
whose byte 4 has the high bit set yields target temperature
`8 + (0x98 >> 3) + 0.5 = 27.5` °C and vertical louver value 0
(`AC_LOUVERV_SWING_UPDOWN`, all three low bits clear). -/
theorem decodeSmall_temp_27_5_louver_swing (body : List Nat) (st : AcState)
    (h2 : body.getD 2 0 = 0x98) (h4 : body.getD 4 0 >>> 7 = 1) :
    (decodeSmall body st).1.tempTarget = 55 / 2 ∧
    (decodeSmall body st).1.louverV = 0 := by
  have h19 : (0x98 >>> 3 : Nat) = 19 := by decide
  have h0 : (0x98 &&& 0x07 : Nat) = 0 := by decide
  constructor
  · simp only [decodeSmall, h2, h4, h19]
    push_cast
    norm_num
  · simp only [decodeSmall, h2, h0]

/-- Witness for `decodeSmall_temp_27_5_louver_swing` on the concrete
body `[01, 11, 98, 00, 80]`. -/
theorem decodeSmall_temp_27_5_louver_swing_witness :
    (decodeSmall [0x01, 0x11, 0x98, 0x00, 0x80] sampleState).1.tempTarget = 55 / 2 ∧
    (decodeSmall [0x01, 0x11, 0x98, 0x00, 0x80] sampleState).1.louverV = 0 :=
  decodeSmall_temp_27_5_louver_swing [0x01, 0x11, 0x98, 0x00, 0x80] sampleState
    (by decide) (by decide)

/-! ## C8 — checksum failure mutates nothing -/

/-- Claim C8: a frame whose recomputed checksum does not match its two
stored checksum bytes is discarded without touching any AC-state field
and without firing the state-change notification; moreover only
checksum-valid info frames (`packet_type 0x07`) ever mutate the AC
state, so any frame failing the checksum or of a different type leaves
the state untouched. -/
theorem parse_bad_crc_no_mutation (p : Packet) (st : AcState)
    (h : checkCRC p = false ∨ p.ptype ≠ AC_PTYPE_INFO) :
    (doParsingPacket p st).ac = st ∧ (doParsingPacket p st).notified = false := by
  unfold doParsingPacket
  by_cases h1 : checkCRC p
  · rcases h with h | h
    · rw [h1] at h; cases h
    · simp only [h1, Bool.true_eq, not_true_eq_false, if_false]
      split_ifs <;> simp_all
  · simp [h1]

/-- Witness for `parse_bad_crc_no_mutation` on the ping-shaped frame
with zeroed checksum bytes. -/
theorem parse_bad_crc_no_mutation_witness :
    (doParsingPacket badCrcPacket sampleState).ac = sampleState ∧
    (doParsingPacket badCrcPacket sampleState).notified = false :=
  parse_bad_crc_no_mutation badCrcPacket sampleState (Or.inl (by decide))

/-! ## C9 — framing errors discard the buffer and return to Idle -/

/-- Claim C9: in the Receiving state, (a) observing a full 34-byte
buffer with more serial data pending discards the incoming packet and
returns to Idle, and (b) whenever the call ends without handing a
complete frame to the parser and the receive timeout of 150 time units
since the frame's first byte has expired, the incoming packet is
likewise discarded and the machine returns to Idle. -/
theorem receiving_discards_on_overflow_or_timeout (p : Packet) (avail : List Nat) (now : Nat) :
    (avail ≠ [] → p.bytesLoaded ≥ AC_BUFFER_SIZE →
      doReceivingPacketState p avail now = { packet := Packet.cleared, acsm := Acsm.idle }) ∧
    ((doReceivingPacketState p avail now).acsm ≠ Acsm.parsing →
      now - p.msec ≥ AC_PACKET_TIMEOUT →
      doReceivingPacketState p avail now = { packet := Packet.cleared, acsm := Acsm.idle }) := by
  induction avail generalizing p with
  | nil =>
    refine ⟨fun h => absurd rfl h, fun hns ht => ?_⟩
    simp only [doReceivingPacketState]
    rw [if_pos ht]
  | cons byte rest ih =>
    constructor
    · intro _ hfull
      simp only [doReceivingPacketState]
      rw [if_pos hfull]
    · intro hns ht
      simp only [doReceivingPacketState] at hns ⊢
      split_ifs at hns ⊢ with hfull hcomp
      · rfl
      · simp at hns
      · exact ((ih _).2 hns ht)

/-- Witness for `receiving_discards_on_overflow_or_timeout`: a full
buffer with one pending byte and an expired timeout is discarded. -/
theorem receiving_discards_witness :
    doReceivingPacketState
        { data := List.replicate 34 0, bytesLoaded := 34, msec := 0 } [1] 200 =
      { packet := Packet.cleared, acsm := Acsm.idle } :=
  (receiving_discards_on_overflow_or_timeout
      { data := List.replicate 34 0, bytesLoaded := 34, msec := 0 } [1] 200).1
    (by decide) (by decide)

/-! ## C10 — frames entering Parsing fit the buffer -/

/-- Claim C10: whenever one receiving call hands the machine to
Parsing, the incoming packet satisfies
`bytesLoaded = 8 + body_length + 2` with `body_length ≤ 24`, so the
whole frame including both checksum bytes lies inside the 34-byte
buffer; a header announcing `body_length > 24` can never reach parsing
because its completion size would exceed the buffer. -/
theorem receiving_to_parsing_fits_buffer (p : Packet) (avail : List Nat) (now : Nat)
    (h : (doReceivingPacketState p avail now).acsm = Acsm.parsing) :
    (doReceivingPacketState p avail now).packet.bytesLoaded =
        AC_HEADER_SIZE + (doReceivingPacketState p avail now).packet.bodyLength + 2 ∧
      (doReceivingPacketState p avail now).packet.bodyLength ≤ AC_MAX_BODY_SIZE ∧
      AC_HEADER_SIZE + (doReceivingPacketState p avail now).packet.bodyLength + 2 ≤
        AC_BUFFER_SIZE := by
  induction avail generalizing p with
  | nil =>
    simp only [doReceivingPacketState] at h
    by_cases ht : now - p.msec ≥ AC_PACKET_TIMEOUT
    · rw [if_pos ht] at h
      simp at h
    · rw [if_neg ht] at h
      simp at h
  | cons byte rest ih =>
    simp only [doReceivingPacketState, Packet.bodyLength] at h ⊢
    by_cases hfull : p.bytesLoaded ≥ AC_BUFFER_SIZE
    · rw [if_pos hfull] at h
      simp at h
    · rw [if_neg hfull] at h ⊢
      by_cases hcomp : p.bytesLoaded + 1 =
          AC_HEADER_SIZE + (p.data.set p.bytesLoaded byte).getD 6 0 + 2
      · rw [if_pos hcomp] at h ⊢
        simp only [AC_HEADER_SIZE, AC_MAX_BODY_SIZE, AC_BUFFER_SIZE] at *
        refine ⟨by omega, by omega, by omega⟩
      · rw [if_neg hcomp] at h ⊢
        exact ih _ h

/-- Witness for `receiving_to_parsing_fits_buffer`: feeding the ten
bytes of a ping frame into an empty buffer reaches Parsing. -/
theorem receiving_to_parsing_witness :
    (doReceivingPacketState Packet.cleared
          [0xBB, 0, 1, 0, 0, 0, 0, 0, 0x43, 0xFF] 5).packet.bytesLoaded =
        AC_HEADER_SIZE + (doReceivingPacketState Packet.cleared
          [0xBB, 0, 1, 0, 0, 0, 0, 0, 0x43, 0xFF] 5).packet.bodyLength + 2 ∧
      (doReceivingPacketState Packet.cleared
          [0xBB, 0, 1, 0, 0, 0, 0, 0, 0x43, 0xFF] 5).packet.bodyLength ≤ AC_MAX_BODY_SIZE ∧
      AC_HEADER_SIZE + (doReceivingPacketState Packet.cleared
          [0xBB, 0, 1, 0, 0, 0, 0, 0, 0x43, 0xFF] 5).packet.bodyLength + 2 ≤
        AC_BUFFER_SIZE :=
  receiving_to_parsing_fits_buffer Packet.cleared
    [0xBB, 0, 1, 0, 0, 0, 0, 0, 0x43, 0xFF] 5 (by decide)

/-! ## C5 — step timeout clears the whole sequence -/

/-- Claim C5: a started function step (non-zero start timestamp) whose
effective timeout — the stored timeout, or 500 time units when the
stored timeout is 0 — has elapsed makes the engine clear the entire
sequence (all 15 slots reset to Empty, cursor 0) without invoking the
step's operation. -/
theorem sequence_timeout_clears_all (s : SeqState) (now : Nat)
    (hseq : hasSequence s = true)
    (hcur : s.cursor < AC_SEQUENCE_MAX_LEN)
    (htype : (s.items.getD s.cursor SeqItem.cleared).itemType = SeqItemType.sitFunc)
    (hfn : (s.items.getD s.cursor SeqItem.cleared).fn.isSome)
    (hstarted : (s.items.getD s.cursor SeqItem.cleared).msec ≠ 0)
    (htimeout : now - (s.items.getD s.cursor SeqItem.cleared).msec ≥
      (if (s.items.getD s.cursor SeqItem.cleared).timeout = 0 then AC_SEQUENCE_DEFAULT_TIMEOUT
        else (s.items.getD s.cursor SeqItem.cleared).timeout)) :
    doSequence s now = (clearedSeq, none) := by
  obtain ⟨f, hf⟩ := Option.isSome_iff_exists.mp hfn
  unfold doSequence
  rw [if_neg (by simp [hseq]), if_neg (not_le.mpr hcur)]
  simp only [htype, hf]
  rw [if_neg hstarted]
  by_cases h0 : (s.items.getD s.cursor SeqItem.cleared).timeout = 0 <;>
    simp only [h0, if_true, if_false] <;>
    rw [if_pos] <;> simp_all

/-- Sequence slot holding a started small-status request step with the
stored timeout still 0 (so the 500-unit default applies). -/
def timeoutStepItem : SeqItem :=
  { SeqItem.cleared with itemType := .sitFunc, fn := some .requestSmallStatus, msec := 10 }

/-- One-step sequence built from `timeoutStepItem`, cursor at slot 0. -/
def timeoutSeqSample : SeqState :=
  { items := timeoutStepItem :: List.replicate 14 SeqItem.cleared, cursor := 0 }

/-- Witness for `sequence_timeout_clears_all`: the one-step sequence
started at time 10 with stored timeout 0 is cleared at time 510. -/
theorem sequence_timeout_clears_all_witness :
    doSequence timeoutSeqSample 510 = (clearedSeq, none) :=
  sequence_timeout_clears_all timeoutSeqSample 510 (by decide) (by decide) (by decide)
    (by decide) (by decide) (by decide)

/-! ## C6 — confirm operations ignore ping frames -/

/-- Claim C6: each of the three confirm operations returns success and
leaves the sequence state (cursor and all slots) untouched when the
incoming frame is a ping (`packet_type 0x01`), so a ping neither
advances nor aborts an active sequence. -/
theorem control_steps_ignore_ping (inP : Packet) (s : SeqState)
    (hping : inP.ptype = AC_PTYPE_PING) :
    sqControlSmallStatus inP s = (true, s) ∧
    sqControlBigStatus inP s = (true, s) ∧
    sqControlDoCommand inP s = (true, s) := by
  unfold sqControlSmallStatus sqControlBigStatus sqControlDoCommand
  by_cases h0 : inP.bytesLoaded = 0 <;> simp [h0, hping]

/-- Witness for `control_steps_ignore_ping` at the concrete valid ping
frame and the empty sequence. -/
theorem control_steps_ignore_ping_witness :
    sqControlSmallStatus pingPacket clearedSeq = (true, clearedSeq) ∧
    sqControlBigStatus pingPacket clearedSeq = (true, clearedSeq) ∧
    sqControlDoCommand pingPacket clearedSeq = (true, clearedSeq) :=
  control_steps_ignore_ping pingPacket clearedSeq (by decide)

/-! ## C2 — set-params encode / small-status decode round trip -/

/-- Command requesting only a target temperature of 27.5 °C. -/
def cmdTemp275 : AcCommand :=
  { clearCommand with tempTarget := 55 / 2, tempTargetMatter := true }

/-- Claim C2 fails on the code: encoding a command whose only explicit
field is the target temperature 27.5 °C (in range, 0.5-degree
fractional part) writes the fractional flag into bit 0 of body byte 4
(`... | 1` after clearing bit 7 with `~AC_TEMP_TARGET_FRAC_PART_MASK`),
while the decoder reads bit 7 (`target_temp_frac >> 7`), so decoding
the encoded body yields 27 °C, not 27.5 °C. The struct documentation
and the decode path both place the fractional bit at bit 7, so the
encoder's `| 1` is the slip. -/
theorem encode_decode_drops_half_degree :
    cmdTemp275.tempTarget = 55 / 2 ∧
    (fillSetCommandBody sampleState cmdTemp275).getD 4 0 = 1 ∧
    (decodeSmall (fillSetCommandBody sampleState cmdTemp275) sampleState).1.tempTarget = 27 ∧
    (27 : ℚ) ≠ 55 / 2 := by
  have h1 : applySetParams (List.replicate 15 0) sampleState =
      [1, 1, 135, 224, 0, 160, 0, 32, 0, 0, 32, 0, 0, 0, 0] := by
    simp only [applySetParams, sampleState]
    norm_num
    decide
  have h2 : applySetParams [1, 1, 135, 224, 0, 160, 0, 32, 0, 0, 32, 0, 0, 0, 0]
      cmdTemp275 = [1, 1, 159, 224, 1, 160, 0, 32, 0, 0, 32, 0, 0, 0, 0] := by
    simp only [applySetParams, cmdTemp275, clearCommand]
    norm_num
    rw [show Int.toNat 27 = 27 from rfl]
    norm_num
    decide
  have hb : fillSetCommandBody sampleState cmdTemp275 =
      [1, 1, 159, 224, 1, 160, 0, 32, 0, 0, 32, 0, 0, 0, 0] := by
    unfold fillSetCommandBody
    rw [h1, h2]
  refine ⟨rfl, by rw [hb]; rfl, ?_, by norm_num⟩
  rw [hb]
  have hg2 : ([1, 1, 159, 224, 1, 160, 0, 32, 0, 0, 32, 0, 0, 0, 0] : List Nat).getD 2 0 = 159 := rfl
  have hg4 : ([1, 1, 159, 224, 1, 160, 0, 32, 0, 0, 32, 0, 0, 0, 0] : List Nat).getD 4 0 = 1 := rfl
  simp only [decodeSmall, hg2, hg4, show (159 >>> 3 : Nat) = 19 from rfl,
    show (1 >>> 7 : Nat) = 0 from rfl]
  push_cast
  norm_num

/-! ## C3 — appending a command transaction to a running sequence -/

/-- Startup polling sequence as `startupSequence` loads it: request and
confirm small status in slots 0–1, request and confirm big status in
slots 2–3, the rest empty. -/
def startupSeqSample : SeqState :=
  { items :=
      [{ SeqItem.cleared with itemType := .sitFunc, fn := some .requestSmallStatus },
        { SeqItem.cleared with itemType := .sitFunc, fn := some .controlSmallStatus },
        { SeqItem.cleared with itemType := .sitFunc, fn := some .requestBigStatus },
        { SeqItem.cleared with itemType := .sitFunc, fn := some .controlBigStatus }] ++
      List.replicate 11 SeqItem.cleared,
    cursor := 0 }

/-- Claim C3 fails on the code: with the startup sequence loaded
(slots 0–3 non-empty), `commandSequence` is supposed (per its own
comment and the specification) to append the six transaction steps
after the last non-empty slot, leaving the existing steps unchanged.
The search loop tests `item_type != AC_SIT_NONE` — the first NON-empty
slot — so the write index is 0 whenever a sequence is loaded, and the
six steps overwrite slots 0–5: after the call, slot 2 holds the
set-params request instead of the big-status request it contained, so
an existing step was destroyed; the capacity-reject branch is
unreachable for the same reason. -/
theorem commandSequence_overwrites_running_sequence :
    hasSequence startupSeqSample = true ∧
    commandSeqStart startupSeqSample = 0 ∧
    ((startupSeqSample.items.getD 2 SeqItem.cleared).fn = some SqFunc.requestBigStatus ∧
      (((commandSequence startupSeqSample clearCommand).items.getD 2
          SeqItem.cleared).fn = some SqFunc.requestDoCommand)) := by
  refine ⟨by decide, by decide, by decide, ?_⟩
  decide

end AuxAC
